import Mathlib

/-!
Shallow embedding of the mirroring core of `src/lib/git.js` (class `GitManager`):
push / retry orchestration, large-object scanning, history rewriting and
workspace lifecycle.  Subordinate git processes are modelled as oracles
(`ProcResult`, push outcomes, per-ref deletion success), and each JS method is
translated into a pure Lean function over those oracles, together with
counters recording how many times each step ran.
-/

namespace BitToHub

/-- The apostrophe character, built from its code point so the string
constants below can be assembled without a literal quote character. -/
def apos : String := String.mk [Char.ofNat 39]

/-- First large-object signature checked by `attemptPush`
(JS: `errorMessage.includes(...)`, git.js line 123). -/
def sig1 : String := "exceeds GitHub" ++ apos ++ "s file size limit"

/-- Second large-object signature checked by `attemptPush` (git.js line 124). -/
def sig2 : String := "GH001: Large files detected"

/-- Contiguous-substring test on character lists, scanning every suffix. -/
def containsFrom (pat : List Char) : List Char → Bool
  | [] => pat.isEmpty
  | c :: rest => pat.isPrefixOf (c :: rest) || containsFrom pat rest

/-- Model of the JS `String.prototype.includes`: `strIncludes s pat` is true
iff `pat` occurs contiguously in `s`. -/
def strIncludes (s pat : String) : Bool := containsFrom pat.data s.data

/-- Split a character list at every occurrence of the character `c`
(the separators the source uses are the single characters `\n` and a
space). -/
def splitChars (c : Char) : List Char → List (List Char)
  | [] => [[]]
  | x :: xs =>
    if x = c then [] :: splitChars c xs
    else
      match splitChars c xs with
      | [] => [[x]]
      | y :: ys => (x :: y) :: ys

/-- Model of the JS `String.prototype.split` with a one-character
separator. -/
def jsSplit (c : Char) (s : String) : List String :=
  (splitChars c s.data).map String.mk

/-- Model of the JS `String.prototype.trim`: drop whitespace from both
ends. -/
def jsTrim (s : String) : String :=
  String.mk (((s.data.dropWhile Char.isWhitespace).reverse.dropWhile
    Char.isWhitespace).reverse)

/-- Model of the JS `Array.prototype.join`. -/
def jsJoin (sep : String) : List String → String
  | [] => ""
  | [x] => x
  | x :: xs => x ++ sep ++ jsJoin sep xs

/-- git.js lines 123-124: a push error message is classified as a
large-object failure iff it contains one of the two signature substrings. -/
def isLargeFileError (msg : String) : Bool :=
  strIncludes msg sig1 || strIncludes msg sig2

/-- Outcome of one underlying mirror-push (the body of `attemptPush`'s `try`
block up to `git.push`): success, or a thrown error with a message. -/
inductive GitPushResult where
  | ok : GitPushResult
  | err (msg : String) : GitPushResult
deriving Repr, DecidableEq

/-- git.js `attemptPush` (lines 103-145).  `Except.ok true` = push succeeded,
`Except.ok false` = returned `false` (large-object failure on first attempt,
signalling the recovery path), `Except.error` = thrown. -/
def attemptPush (res : GitPushResult) (isRetry : Bool) : Except String Bool :=
  match res with
  | .ok => .ok true
  | .err msg =>
    if isLargeFileError msg then
      if isRetry then
        .error ("Large files still present after cleanup: " ++ msg)
      else
        .ok false
    else
      .error ("Failed to push to GitHub: " ++ msg)

/-- Outcome of one subordinate process spawn (`child_process.spawn`): it
either exited with a code and captured stdout, or spawning itself failed. -/
inductive ProcResult where
  | exited (code : Int) (stdout : String) : ProcResult
  | spawnErr (msg : String) : ProcResult
deriving Repr, DecidableEq

/-- Leading decimal digits of a character list. -/
def leadingDigits (l : List Char) : List Char := l.takeWhile (fun c => c.isDigit)

/-- Numeric value of a list of decimal digits. -/
def digitsVal (l : List Char) : Nat :=
  l.foldl (fun n c => n * 10 + (c.toNat - 48)) 0

/-- Model of the JS `parseInt` on an already-trimmed decimal string:
optional sign followed by a longest run of digits; `none` models `NaN`. -/
def jsParseInt (s : String) : Option Int :=
  match s.data with
  | [] => none
  | c :: rest =>
    if c = '-' then
      match leadingDigits rest with
      | [] => none
      | ds => some (-(digitsVal ds : Int))
    else if c = '+' then
      match leadingDigits rest with
      | [] => none
      | ds => some (digitsVal ds : Int)
    else
      match leadingDigits (c :: rest) with
      | [] => none
      | ds => some (digitsVal ds : Int)

/-- git.js `getObjectSize` (lines 301-326): on exit code 0 parse the trimmed
stdout (`NaN` becomes 0); a non-zero exit or a spawn error resolves to 0 —
the promise never rejects. -/
def getObjectSize (r : ProcResult) : Int :=
  match r with
  | .exited code out =>
    if code = 0 then
      match jsParseInt (jsTrim out) with
      | some n => n
      | none => 0
    else 0
  | .spawnErr _ => 0

/-- A size-lookup that did not complete normally: spawn error or non-zero
exit of `git cat-file -s`. -/
def lookupFailed (r : ProcResult) : Bool :=
  match r with
  | .exited code _ => code != 0
  | .spawnErr _ => true

/-- One oversized object found in history (git.js line 279:
`{ path: filePath, size: size, hash: hash }`). -/
structure LargeFile where
  path : String
  size : Int
  hash : String
deriving Repr, DecidableEq

/-- git.js lines 270-274: split a `rev-list --objects` line on single spaces;
the first field is the hash, the rest (re-joined with spaces) the path; a
line with no path fields is skipped. -/
def parseLine (line : String) : Option (String × String) :=
  match jsSplit ' ' line with
  | [] => none
  | hash :: pathParts =>
    if pathParts.isEmpty then none
    else some (hash, jsJoin " " pathParts)

/-- The hash field of a `rev-list --objects` output line. -/
def lineHash (line : String) : String :=
  match jsSplit ' ' line with
  | [] => ""
  | h :: _ => h

/-- git.js lines 267-289: for each enumerated line, look up the object size
and keep a record when the size meets the limit; failed parses and
below-limit objects are dropped. -/
def scanLine (catFile : String → ProcResult) (sizeLimit : Int)
    (line : String) : Option LargeFile :=
  match parseLine line with
  | none => none
  | some (hash, p) =>
    let size := getObjectSize (catFile hash)
    if sizeLimit ≤ size then some { path := p, size := size, hash := hash }
    else none

/-- The records kept from all enumerated lines (git.js lines 276-288). -/
def scanRecords (lines : List String) (catFile : String → ProcResult)
    (sizeLimit : Int) : List LargeFile :=
  lines.filterMap (scanLine catFile sizeLimit)

/-- Default `sizeLimit` of `findLargeFiles` (git.js line 246): 100 MiB. -/
def defaultSizeLimit : Int := 100 * 1024 * 1024

/-- git.js `findLargeFiles` (lines 246-299).  `revList` is the outcome of
`git rev-list --objects --all`; a spawn error rejects with that error, a
non-zero exit rejects with a fixed message, otherwise the non-blank output
lines are scanned against the `catFile` size oracle. -/
def findLargeFiles (revList : ProcResult) (catFile : String → ProcResult)
    (sizeLimit : Int) : Except String (List LargeFile) :=
  match revList with
  | .spawnErr m => .error m
  | .exited code out =>
    if code ≠ 0 then .error "Failed to list git objects"
    else
      .ok (scanRecords ((jsSplit (Char.ofNat 10) out).filter (fun l => jsTrim l != ""))
        catFile sizeLimit)

/-- git.js line 401: the refs listed by
`git for-each-ref --format=%(refname) refs/original/`, one per non-blank
output line. -/
def refsListed (out : String) : List String :=
  (jsSplit (Char.ofNat 10) out).filter (fun r => jsTrim r != "")

/-- git.js `removeLargeFilesWithFilterBranch` (lines 376-417), over an
abstract history type `H`.  `fbRes` is the outcome of the `filter-branch`
raw call and `fbApply` its effect on the history; `forEachRef` the outcome
of listing `refs/original/`; `deleteRefOk r` whether `update-ref -d r`
succeeded.  A failed individual deletion is logged and skipped (lines
403-409), so the returned list of surviving `refs/original/` refs is exactly
the refs whose deletion failed; any raw-call error is wrapped (line 415). -/
def removeLargeFilesWithFilterBranch {H : Type} (hist : H)
    (fbRes : Except String Unit) (fbApply : H → H)
    (forEachRef : Except String String) (deleteRefOk : String → Bool) :
    Except String (H × List String) :=
  match fbRes with
  | .error e => .error ("Failed to remove large files with filter-branch: " ++ e)
  | .ok _ =>
    match forEachRef with
    | .error e => .error ("Failed to remove large files with filter-branch: " ++ e)
    | .ok out =>
      .ok (fbApply hist, (refsListed out).filter (fun r => !(deleteRefOk r)))

/-- Result of `removeLargeFiles`: the rewritten history (or the propagated
error), how many times the primary `git filter-repo` process was invoked,
how many times the `filter-branch` fallback ran, and — when the fallback
ran — the `refs/original/` refs still present afterwards. -/
structure RewriteResult (H : Type) where
  result : Except String H
  filterRepoSpawns : Nat
  filterBranchRuns : Nat
  refsOriginalLeft : Option (List String)

/-- git.js `removeLargeFiles` (lines 328-374): an empty `largeFiles` list
returns success at once (lines 329-331) without spawning anything; otherwise
`git filter-repo` is invoked once and, on a non-zero exit or spawn error,
the `filter-branch` fallback runs. -/
def removeLargeFiles {H : Type} (hist : H) (largeFiles : List LargeFile)
    (frRes : ProcResult) (frApply : H → H)
    (fbRes : Except String Unit) (fbApply : H → H)
    (forEachRef : Except String String) (deleteRefOk : String → Bool) :
    RewriteResult H :=
  if largeFiles.length = 0 then
    { result := .ok hist, filterRepoSpawns := 0, filterBranchRuns := 0,
      refsOriginalLeft := none }
  else
    match frRes with
    | .exited 0 _ =>
      { result := .ok (frApply hist), filterRepoSpawns := 1,
        filterBranchRuns := 0, refsOriginalLeft := none }
    | _ =>
      match removeLargeFilesWithFilterBranch hist fbRes fbApply forEachRef deleteRefOk with
      | .ok (h2, remaining) =>
        { result := .ok h2, filterRepoSpawns := 1, filterBranchRuns := 1,
          refsOriginalLeft := some remaining }
      | .error e =>
        { result := .error e, filterRepoSpawns := 1, filterBranchRuns := 1,
          refsOriginalLeft := none }

/-- The two git commands `cleanupRepository` issues (git.js lines 154-155). -/
inductive GitCmd where
  | reflogExpireNow : GitCmd
  | gcAggressive : GitCmd
deriving Repr, DecidableEq

/-- What `cleanupRepository` did: the commands it invoked, in order, and
whether it logged a warning. -/
structure CleanupOutcome where
  cmds : List GitCmd
  warned : Bool
deriving Repr, DecidableEq

/-- git.js `cleanupRepository` (lines 147-162): expire all reflog entries,
then run aggressive gc; any raw-call error is caught and logged, never
re-thrown (a failing first command skips the second). -/
def cleanupRepository (reflogOk gcOk : Bool) : CleanupOutcome :=
  if reflogOk then
    if gcOk then { cmds := [.reflogExpireNow, .gcAggressive], warned := false }
    else { cmds := [.reflogExpireNow, .gcAggressive], warned := true }
  else { cmds := [.reflogExpireNow], warned := true }

/-- The subordinate-process oracles one `pushToGitHub` call consumes. -/
structure GitEnv where
  push1 : GitPushResult
  push2 : GitPushResult
  revList : ProcResult
  catFile : String → ProcResult
  filterRepo : ProcResult
  filterBranch : Except String Unit
  forEachRef : Except String String
  deleteRefOk : String → Bool
  reflogOk : Bool
  gcOk : Bool

/-- What one `pushToGitHub` call did: its result, how many push attempts,
large-file scans and rewrite invocations ran, and the commands
`cleanupRepository` issued (empty when it was never reached). -/
structure PushOutcome where
  result : Except String Unit
  pushes : Nat
  scans : Nat
  rewrites : Nat
  cleanupCmds : List GitCmd

/-- The wrapping applied by `pushToGitHub`'s catch block (git.js line 99). -/
def cleanupWrap (e : String) : String :=
  "Failed to push to GitHub. Cleanup attempt failed: " ++ e

/-- git.js `pushToGitHub` (lines 59-101): first push attempt; on a
large-object classification, scan, and — only when the scan found files —
rewrite, clean up, and retry exactly once; a scan returning nothing, and any
error thrown inside the recovery block, are wrapped by the catch (line 99). -/
def pushToGitHub (env : GitEnv) : PushOutcome :=
  match attemptPush env.push1 false with
  | .error e => ⟨.error e, 1, 0, 0, []⟩
  | .ok true => ⟨.ok (), 1, 0, 0, []⟩
  | .ok false =>
    match findLargeFiles env.revList env.catFile defaultSizeLimit with
    | .error e => ⟨.error (cleanupWrap e), 1, 1, 0, []⟩
    | .ok largeFiles =>
      if 0 < largeFiles.length then
        match (removeLargeFiles () largeFiles env.filterRepo (fun u => u)
            env.filterBranch (fun u => u) env.forEachRef env.deleteRefOk).result with
        | .error e => ⟨.error (cleanupWrap e), 1, 1, 1, []⟩
        | .ok _ =>
          match attemptPush env.push2 true with
          | .ok true =>
            ⟨.ok (), 2, 1, 1, (cleanupRepository env.reflogOk env.gcOk).cmds⟩
          | .ok false =>
            ⟨.error (cleanupWrap "Failed to push even after removing large files"),
              2, 1, 1, (cleanupRepository env.reflogOk env.gcOk).cmds⟩
          | .error e =>
            ⟨.error (cleanupWrap e), 2, 1, 1,
              (cleanupRepository env.reflogOk env.gcOk).cmds⟩
      else
        ⟨.error (cleanupWrap "Push failed but no large files found"), 1, 1, 0, []⟩

/-- What one `mirrorRepository` call left behind: the primary result, whether
the `finally` block attempted to remove the workspace, whether the workspace
path still exists afterwards, and whether a cleanup warning was logged. -/
structure MirrorOutcome where
  result : Except String Bool
  rmAttempted : Bool
  workspaceExistsAfter : Bool
  cleanupWarned : Bool

/-- git.js `mirrorRepository` (lines 164-194): clone, then push; the
`finally` block removes the workspace whenever a clone path was produced,
and a removal failure (`rmOk = false`) is logged via `console.warn` without
changing the primary result. -/
def mirrorRepository (cloneRes : Except String String)
    (pushRes : Except String Unit) (rmOk : Bool) : MirrorOutcome :=
  match cloneRes with
  | .error e =>
    { result := .error e, rmAttempted := false, workspaceExistsAfter := false,
      cleanupWarned := false }
  | .ok _ =>
    match pushRes with
    | .ok _ =>
      { result := .ok true, rmAttempted := true, workspaceExistsAfter := !rmOk,
        cleanupWarned := !rmOk }
    | .error e =>
      { result := .error e, rmAttempted := true, workspaceExistsAfter := !rmOk,
        cleanupWarned := !rmOk }

/-- What `cleanupTempDir` did; it has no error component because the source
swallows every removal failure (git.js lines 207-213). -/
structure TempDirCleanup where
  warned : Bool
deriving Repr, DecidableEq

/-- git.js `cleanupTempDir` (lines 207-213): remove the base temp dir,
logging (never re-throwing) a failure. -/
def cleanupTempDir (rmOk : Bool) : TempDirCleanup :=
  { warned := !rmOk }

/-- git.js `ensureTempDir` (lines 28-34) over a flat filesystem model (the
list of existing paths): create the base dir if absent, idempotently. -/
def ensureTempDir (tempDir : String) (fsPaths : List String) : List String :=
  if tempDir ∈ fsPaths then fsPaths else tempDir :: fsPaths

/-- git.js line 39: `path.join(this.tempDir, repoName)`. -/
def repoPathOf (tempDir repoName : String) : String :=
  tempDir ++ "/" ++ repoName

/-- The filesystem right before `git clone` runs (git.js lines 37-46):
the base dir ensured, then any pre-existing workspace path forcibly
removed. -/
def preCloneState (tempDir repoName : String) (fsPaths : List String) :
    List String :=
  (ensureTempDir tempDir fsPaths).filter (fun q => q != repoPathOf tempDir repoName)

/-- git.js `cloneRepository` (lines 36-57): ensure the base dir, forcibly
delete a stale workspace, then clone (outcome given by the `cloneOk`
oracle); on success the workspace path exists, on failure the error is
wrapped (line 55). -/
def cloneRepository (tempDir repoName : String) (fsPaths : List String)
    (cloneOk : Bool) (cloneErrMsg : String) :
    Except String (String × List String) :=
  let p := repoPathOf tempDir repoName
  let fs2 := preCloneState tempDir repoName fsPaths
  if cloneOk then .ok (p, p :: fs2)
  else .error ("Failed to clone repository " ++ repoName ++ ": " ++ cloneErrMsg)

/-- Modelled from the spec's words, for comparison with the source's
`isLargeFileError` (refinement claim about the failure classification): the
spec names the two signature substrings as "exceeds file size limit" and
"large files detected". -/
def specSignatureMatch (msg : String) : Bool :=
  strIncludes msg "exceeds file size limit" || strIncludes msg "large files detected"

/-- Concrete oracle set for the double-failure scenario: both pushes fail
with the second signature, the scan enumerates one oversized object, the
primary rewrite tool succeeds. -/
def wEnvRetry : GitEnv :=
  ⟨.err sig2, .err sig2, .exited 0 "h1 big.bin", fun _ => .exited 0 "209715200",
    .exited 0 "", .ok (), .ok "", fun _ => true, true, true⟩

/-- Concrete oracle set for the false-signature scenario: the push fails
with a signature but the enumeration output is empty. -/
def wEnvNoLarge : GitEnv :=
  ⟨.err sig2, .ok, .exited 0 "", fun _ => .exited 0 "0",
    .exited 0 "", .ok (), .ok "", fun _ => true, true, true⟩

/-- Concrete oracle set for a push failure with an unrelated message. -/
def wEnvOther : GitEnv :=
  ⟨.err "Authentication failed", .ok, .exited 0 "", fun _ => .exited 0 "0",
    .exited 0 "", .ok (), .ok "", fun _ => true, true, true⟩

/-- Concrete size oracle whose lookup for object `h2` fails to spawn. -/
def wCatFile : String → ProcResult :=
  fun hsh => if hsh = "h2" then .spawnErr "boom" else .exited 0 "209715200"

end BitToHub

namespace BitToHub

theorem lookupFailed_getObjectSize {r : ProcResult}
    (hf : lookupFailed r = true) : getObjectSize r = 0 := by
  cases r with
  | exited code out =>
    simp only [lookupFailed, bne_iff_ne, ne_eq] at hf
    simp [getObjectSize, hf]
  | spawnErr m => rfl

theorem scanLine_size {catFile : String → ProcResult} {lim : Int}
    {line : String} {r : LargeFile}
    (hf : scanLine catFile lim line = some r) :
    lim ≤ getObjectSize (catFile r.hash) ∧ r.size = getObjectSize (catFile r.hash) := by
  unfold scanLine at hf
  cases hp : parseLine line with
  | none => rw [hp] at hf; cases hf
  | some pr =>
    obtain ⟨hash, p⟩ := pr
    rw [hp] at hf
    simp only at hf
    split at hf
    · cases hf
      rename_i hle
      exact ⟨hle, rfl⟩
    · cases hf

theorem scanLine_hash {catFile : String → ProcResult} {lim : Int}
    {line : String} {r : LargeFile}
    (hf : scanLine catFile lim line = some r) : r.hash = lineHash line := by
  unfold scanLine parseLine at hf
  unfold lineHash
  cases hsp : jsSplit ' ' line with
  | nil => rw [hsp] at hf; cases hf
  | cons hd tl =>
    rw [hsp] at hf
    dsimp only at hf ⊢
    by_cases ht : tl.isEmpty
    · rw [if_pos ht] at hf; cases hf
    · rw [if_neg ht] at hf
      dsimp only at hf
      split at hf
      · cases hf; rfl
      · cases hf

/-- Claim C10: calling `removeLargeFiles` with an empty list of large files
is an identity operation — it returns success immediately, spawns neither
the primary rewriting process nor the fallback, and returns the repository
history unchanged, whatever the rewriting oracles would have done. -/
theorem remove_empty_identity (H : Type) (hist : H) (frRes : ProcResult)
    (frApply : H → H) (fbRes : Except String Unit) (fbApply : H → H)
    (forEachRef : Except String String) (deleteRefOk : String → Bool) :
    removeLargeFiles hist [] frRes frApply fbRes fbApply forEachRef deleteRefOk
      = ⟨.ok hist, 0, 0, none⟩ := rfl

/-- Claim C2: whenever `mirrorRepository` produced a clone path, the
`finally` block attempts removal of the workspace on every terminal
outcome; on removal success the path is gone, a removal failure is logged
as a warning and leaves the primary result exactly what it would have been,
and `cleanupTempDir` likewise only warns on failure and never raises. -/
theorem cleanup_guarantee (p : String) (pushRes : Except String Unit)
    (rmOk : Bool) :
    (mirrorRepository (.ok p) pushRes rmOk).rmAttempted = true
    ∧ (mirrorRepository (.ok p) pushRes rmOk).workspaceExistsAfter = !rmOk
    ∧ (mirrorRepository (.ok p) pushRes rmOk).cleanupWarned = !rmOk
    ∧ (mirrorRepository (.ok p) pushRes rmOk).result
        = (mirrorRepository (.ok p) pushRes true).result
    ∧ cleanupTempDir rmOk = ⟨!rmOk⟩ := by
  cases pushRes <;> simp [mirrorRepository, cleanupTempDir]

/-- Claim C3, counterexample: the spec's substring "exceeds file size
limit" is matched by neither direction of the code's classification — a
message consisting of that exact substring is rejected as non-recoverable
by `attemptPush`, while the code's own first signature contains neither of
the spec's two substrings. -/
theorem spec_signature_mismatch :
    specSignatureMatch "exceeds file size limit" = true
    ∧ isLargeFileError "exceeds file size limit" = false
    ∧ attemptPush (.err "exceeds file size limit") false
        = .error ("Failed to push to GitHub: " ++ "exceeds file size limit")
    ∧ isLargeFileError sig1 = true
    ∧ specSignatureMatch sig1 = false :=
  ⟨rfl, rfl, rfl, rfl, rfl⟩

/-- Claim C3, amended: a first-attempt push failure is classified as a
recoverable large-object failure (returning `false` and so triggering the
scan-and-rewrite path) iff the toolchain's error message contains one of
the two exact substrings the source checks: `sig1` ("exceeds
GitHub&#39;s file size limit") or `sig2` ("GH001: Large files detected"). -/
theorem signature_classification (msg : String) :
    attemptPush (.err msg) false = .ok false
      ↔ (strIncludes msg sig1 = true ∨ strIncludes msg sig2 = true) := by
  by_cases h1 : strIncludes msg sig1 <;> by_cases h2 : strIncludes msg sig2 <;>
    simp [attemptPush, isLargeFileError, h1, h2]

/-- Claim C6: a push failure matching a large-object signature followed by
a scan returning the empty set makes `pushToGitHub` fail (with the wrapped
"no large files found" error) after exactly one push and one scan, invoking
no rewrite. -/
theorem false_signature_guard (env : GitEnv) (m1 : String)
    (h1 : env.push1 = .err m1) (hs1 : isLargeFileError m1 = true)
    (hscan : findLargeFiles env.revList env.catFile defaultSizeLimit = .ok []) :
    (pushToGitHub env).result
        = .error (cleanupWrap "Push failed but no large files found")
    ∧ (pushToGitHub env).pushes = 1
    ∧ (pushToGitHub env).scans = 1
    ∧ (pushToGitHub env).rewrites = 0 := by
  simp [pushToGitHub, attemptPush, h1, hs1, hscan]

theorem false_signature_guard_witness :
    (pushToGitHub wEnvNoLarge).result
        = .error (cleanupWrap "Push failed but no large files found")
    ∧ (pushToGitHub wEnvNoLarge).pushes = 1
    ∧ (pushToGitHub wEnvNoLarge).scans = 1
    ∧ (pushToGitHub wEnvNoLarge).rewrites = 0 :=
  false_signature_guard wEnvNoLarge sig2 rfl rfl rfl

/-- Claim C7: a push failure whose message matches neither signature makes
`pushToGitHub` fail immediately with the wrapped push error, invoking
neither scan nor rewrite nor a second push. -/
theorem non_recoverable_classification (env : GitEnv) (m1 : String)
    (h1 : env.push1 = .err m1) (hs1 : isLargeFileError m1 = false) :
    (pushToGitHub env).result = .error ("Failed to push to GitHub: " ++ m1)
    ∧ (pushToGitHub env).pushes = 1
    ∧ (pushToGitHub env).scans = 0
    ∧ (pushToGitHub env).rewrites = 0 := by
  simp [pushToGitHub, attemptPush, h1, hs1]

theorem non_recoverable_classification_witness :
    (pushToGitHub wEnvOther).result
        = .error ("Failed to push to GitHub: " ++ "Authentication failed")
    ∧ (pushToGitHub wEnvOther).pushes = 1
    ∧ (pushToGitHub wEnvOther).scans = 0
    ∧ (pushToGitHub wEnvOther).rewrites = 0 :=
  non_recoverable_classification wEnvOther "Authentication failed" rfl rfl

/-- Claim C1: when the first push fails with a large-object signature, the
scan finds files, the rewrite succeeds, and the retried push fails with a
large-object signature again, `pushToGitHub` runs exactly two pushes, one
scan and one rewrite, and fails with the wrapped "Large files still present
after cleanup" error carrying the toolchain's message that enumerates the
still-oversized files — it never attempts a third push. -/
theorem at_most_one_retry (env : GitEnv) (m1 m2 : String) (rs : List LargeFile)
    (h1 : env.push1 = .err m1) (hs1 : isLargeFileError m1 = true)
    (h2 : env.push2 = .err m2) (hs2 : isLargeFileError m2 = true)
    (hscan : findLargeFiles env.revList env.catFile defaultSizeLimit = .ok rs)
    (hne : rs ≠ [])
    (hrw : (removeLargeFiles () rs env.filterRepo (fun u => u) env.filterBranch
        (fun u => u) env.forEachRef env.deleteRefOk).result = .ok ()) :
    (pushToGitHub env).pushes = 2
    ∧ (pushToGitHub env).scans = 1
    ∧ (pushToGitHub env).rewrites = 1
    ∧ (pushToGitHub env).result
        = .error (cleanupWrap ("Large files still present after cleanup: " ++ m2)) := by
  have hlen : 0 < rs.length := List.length_pos.mpr hne
  simp [pushToGitHub, attemptPush, h1, hs1, h2, hs2, hscan, hlen, hrw]

theorem at_most_one_retry_witness :
    (pushToGitHub wEnvRetry).pushes = 2
    ∧ (pushToGitHub wEnvRetry).scans = 1
    ∧ (pushToGitHub wEnvRetry).rewrites = 1
    ∧ (pushToGitHub wEnvRetry).result
        = .error (cleanupWrap ("Large files still present after cleanup: " ++ sig2)) :=
  at_most_one_retry wEnvRetry sig2 sig2 [⟨"big.bin", 209715200, "h1"⟩]
    rfl rfl rfl rfl rfl (by simp) rfl

/-- Claim C8: a failed size lookup (`git cat-file -s` spawn error or
non-zero exit) for one object never aborts the scan — the scan still
succeeds and that object's hash appears in no returned record (for any
positive threshold) — whereas a failure of the `rev-list` enumeration step
(spawn error or non-zero exit) fails the scan as a whole. -/
theorem scan_fault_isolation (out : String) (catFile : String → ProcResult)
    (lim : Int) (h : String) (hlim : 0 < lim)
    (hfail : lookupFailed (catFile h) = true) :
    (∃ rs, findLargeFiles (.exited 0 out) catFile lim = .ok rs
        ∧ ∀ r ∈ rs, r.hash ≠ h)
    ∧ (∀ m, findLargeFiles (.spawnErr m) catFile lim = .error m)
    ∧ (∀ code o, code ≠ 0 →
        findLargeFiles (.exited code o) catFile lim
          = .error "Failed to list git objects") := by
  refine ⟨⟨scanRecords ((jsSplit (Char.ofNat 10) out).filter (fun l => jsTrim l != ""))
      catFile lim, by simp [findLargeFiles], ?_⟩,
    fun m => rfl, fun code o hc => by simp [findLargeFiles, hc]⟩
  intro r hr heq
  rw [scanRecords] at hr
  obtain ⟨line, -, hline⟩ := List.mem_filterMap.mp hr
  obtain ⟨hle, -⟩ := scanLine_size hline
  rw [heq, lookupFailed_getObjectSize hfail] at hle
  omega

theorem scan_fault_isolation_witness :
    (∃ rs, findLargeFiles (.exited 0 "h1 a.bin\nh2 b.bin") wCatFile
        defaultSizeLimit = .ok rs ∧ ∀ r ∈ rs, r.hash ≠ "h2")
    ∧ (∀ m, findLargeFiles (.spawnErr m) wCatFile defaultSizeLimit = .error m)
    ∧ (∀ code o, code ≠ 0 →
        findLargeFiles (.exited code o) wCatFile defaultSizeLimit
          = .error "Failed to list git objects") :=
  scan_fault_isolation "h1 a.bin\nh2 b.bin" wCatFile defaultSizeLimit "h2"
    (by decide) rfl

/-- Claim C9: a second acquisition of the same repository's workspace with
no intervening release cannot fail because of the first one's leftovers:
the first successful clone leaves the workspace path in the filesystem, the
second call forcibly deletes any pre-existing directory at that path before
cloning (the pre-clone state never contains it) and succeeds. -/
theorem idempotent_workspace_reuse (tempDir repoName m : String)
    (fsPaths fs1 : List String)
    (hfirst : cloneRepository tempDir repoName fsPaths true m
      = .ok (repoPathOf tempDir repoName, fs1)) :
    (∃ fs2, cloneRepository tempDir repoName fs1 true m
        = .ok (repoPathOf tempDir repoName, fs2))
    ∧ repoPathOf tempDir repoName ∈ fs1
    ∧ repoPathOf tempDir repoName ∉ preCloneState tempDir repoName fs1 := by
  have hfs1 : fs1
      = repoPathOf tempDir repoName :: preCloneState tempDir repoName fsPaths := by
    simpa [cloneRepository] using hfirst.symm
  refine ⟨⟨_, rfl⟩, ?_, ?_⟩
  · rw [hfs1]; exact List.mem_cons_self _ _
  · simp [preCloneState, List.mem_filter]

theorem idempotent_workspace_reuse_witness :
    (∃ fs2, cloneRepository "./temp" "demo" ["./temp/demo", "./temp"] true ""
        = .ok (repoPathOf "./temp" "demo", fs2))
    ∧ repoPathOf "./temp" "demo" ∈ ["./temp/demo", "./temp"]
    ∧ repoPathOf "./temp" "demo"
        ∉ preCloneState "./temp" "demo" ["./temp/demo", "./temp"] :=
  idempotent_workspace_reuse "./temp" "demo" "" [] ["./temp/demo", "./temp"] rfl

/-- Claim C4, counterexample: two distinct oversized objects recorded at
the same repository-relative path produce two records with that path — the
scanner result is not deduplicated by path. -/
theorem scan_duplicate_paths :
    findLargeFiles (.exited 0 "h1 big.bin\nh2 big.bin")
        (fun _ => .exited 0 "209715200") defaultSizeLimit
      = .ok [⟨"big.bin", 209715200, "h1"⟩, ⟨"big.bin", 209715200, "h2"⟩]
    ∧ ¬ (List.Pairwise (fun a b => a.path ≠ b.path)
        [(⟨"big.bin", 209715200, "h1"⟩ : LargeFile),
          ⟨"big.bin", 209715200, "h2"⟩]) := by
  refine ⟨rfl, ?_⟩
  decide

/-- Claim C4, amended: the scanner emits one record per enumerated object
line that meets the threshold and performs no path-level deduplication;
what does hold is that, provided the enumeration lists pairwise-distinct
object hashes (as `rev-list --objects` does, one line per object), no two
returned records share the same hash. -/
theorem scan_no_hash_duplicates (out : String) (catFile : String → ProcResult)
    (lim : Int) (rs : List LargeFile)
    (hok : findLargeFiles (.exited 0 out) catFile lim = .ok rs)
    (hdist : ((jsSplit (Char.ofNat 10) out).filter (fun l => jsTrim l != "")).Pairwise
        (fun l1 l2 => lineHash l1 ≠ lineHash l2)) :
    rs.Pairwise (fun r1 r2 => r1.hash ≠ r2.hash) := by
  have hrs : scanRecords ((jsSplit (Char.ofNat 10) out).filter (fun l => jsTrim l != ""))
      catFile lim = rs := by
    simpa [findLargeFiles] using hok
  rw [← hrs, scanRecords]
  refine List.Pairwise.filterMap _ ?_ hdist
  intro l1 l2 hne b hb b2 hb2
  rw [scanLine_hash (Option.mem_def.mp hb), scanLine_hash (Option.mem_def.mp hb2)]
  exact hne

theorem scan_no_hash_duplicates_witness :
    List.Pairwise (fun r1 r2 => r1.hash ≠ r2.hash)
      [(⟨"big.bin", 209715200, "h1"⟩ : LargeFile),
        ⟨"big.bin", 209715200, "h2"⟩] :=
  scan_no_hash_duplicates "h1 big.bin\nh2 big.bin" (fun _ => .exited 0 "209715200")
    defaultSizeLimit [⟨"big.bin", 209715200, "h1"⟩, ⟨"big.bin", 209715200, "h2"⟩]
    rfl (by decide)

/-- Claim C5: after the fallback (filter-branch) rewrite completes, every
`refs/original/` backup reference whose deletion succeeded is gone (all of
them when every deletion succeeds), an individual deletion failure only
leaves that one ref behind without failing the rewrite, and after either
strategy the engine runs `cleanupRepository`, whose commands are reflog
expiry followed by aggressive gc — in `pushToGitHub`, every outcome that
reached the retry push (two pushes) ran those cleanup commands first. -/
theorem fallback_backup_ref_cleanup (H : Type) (hist : H) (fbApply : H → H)
    (out : String) (delOk : String → Bool) (env : GitEnv) :
    (∃ h2 remaining,
        removeLargeFilesWithFilterBranch hist (.ok ()) fbApply (.ok out) delOk
          = .ok (h2, remaining)
        ∧ (∀ r ∈ remaining, delOk r = false)
        ∧ (∀ r ∈ refsListed out, delOk r = true → r ∉ remaining))
    ∧ ((∀ r ∈ refsListed out, delOk r = true) →
        removeLargeFilesWithFilterBranch hist (.ok ()) fbApply (.ok out) delOk
          = .ok (fbApply hist, []))
    ∧ (cleanupRepository true true).cmds
        = [GitCmd.reflogExpireNow, GitCmd.gcAggressive]
    ∧ ((pushToGitHub env).pushes = 2 →
        (pushToGitHub env).cleanupCmds
          = (cleanupRepository env.reflogOk env.gcOk).cmds) := by
  refine ⟨⟨fbApply hist, (refsListed out).filter (fun r => !(delOk r)),
    rfl, ?_, ?_⟩, ?_, rfl, ?_⟩
  · intro r hr
    have := (List.mem_filter.mp hr).2
    simpa using this
  · intro r hr hok hmem
    have := (List.mem_filter.mp hmem).2
    rw [hok] at this
    simp at this
  · intro hall
    have hnil : (refsListed out).filter (fun r => !(delOk r)) = [] := by
      rw [List.filter_eq_nil_iff]
      intro a ha
      simp [hall a ha]
    simp [removeLargeFilesWithFilterBranch, hnil]
  · cases hA : attemptPush env.push1 false with
    | error e => simp [pushToGitHub, hA]
    | ok b =>
      cases b with
      | true => simp [pushToGitHub, hA]
      | false =>
        cases hS : findLargeFiles env.revList env.catFile defaultSizeLimit with
        | error e => simp [pushToGitHub, hA, hS]
        | ok rs =>
          by_cases hlen : 0 < rs.length
          · cases hR : (removeLargeFiles () rs env.filterRepo (fun u => u)
                env.filterBranch (fun u => u) env.forEachRef env.deleteRefOk).result with
            | error e => simp [pushToGitHub, hA, hS, hlen, hR]
            | ok u =>
              cases hB : attemptPush env.push2 true with
              | error e => simp [pushToGitHub, hA, hS, hlen, hR, hB]
              | ok b2 => cases b2 <;> simp [pushToGitHub, hA, hS, hlen, hR, hB]
          · simp [pushToGitHub, hA, hS, hlen]

end BitToHub
